import Mathlib

/-!
Verification of the AiFunCheckApp29 social-sharing core.

This file gives a shallow embedding of the TypeScript services
(`PostService.ts`, `FeedService`, `FriendService.ts`,
`AuthenticationService.ts`, `SerializationService.ts`) over the
`InMemoryStorage` store, and proves or refutes the frozen claims about
them.

Modelling conventions:
* machine dates (`Date`) are epoch milliseconds as `Nat`
  (`toISOString` / `new Date(iso)` preserve the instant exactly);
* `Map`/`Set` members of `InMemoryStorage` are association lists with
  set-insert (insert-if-absent) and filter-delete, which have the same
  membership semantics;
* JS `undefined`-able fields are `Option`;
* thrown typed errors are `Except` values over explicit error enums;
* `Date.now()` / `new Date()` is an explicit `now : Nat` parameter and
  fresh uuids are explicit `String` parameters.
-/

namespace AiFun

/-- `Visibility` from `models/types.ts`: `'friends_only' | 'public'`. -/
inductive Visibility where
  | friendsOnly
  | publicV
deriving DecidableEq

/-- `ContentType` from `models/types.ts`: `'text' | 'image' | 'video'`. -/
inductive ContentType where
  | text
  | image
  | video
deriving DecidableEq

/--
Post content as it exists at runtime: `PostContent` from
`models/types.ts` (`type`, `text?`, `mediaUrl?`) extended with the
optional `mimeType?` / `fileSize?` fields of `PostContentWithFile`
(`PostService.ts`), which callers of `createPost` may carry through into
the stored post (TypeScript structural typing) and which the spec's §3
content union also lists.
-/
structure PostContent where
  type : ContentType
  text : Option String
  mediaUrl : Option String
  mimeType : Option String
  fileSize : Option Nat
deriving DecidableEq

/-- `Post` from `models/types.ts`. Dates are epoch milliseconds. -/
structure Post where
  id : String
  authorId : String
  content : PostContent
  visibility : Visibility
  createdAt : Nat
  updatedAt : Nat
  isEdited : Bool
deriving DecidableEq

/--
`InMemoryStorage.areFriends(userId1, userId2)`: membership of
`userId2` in `friendsByUser.get(userId1)`.  The `friendsByUser` index is
modelled as the list of directed edges `(userId, friendId)`.
-/
def areFriendsL (friends : List (String × String)) (userId1 userId2 : String) : Bool :=
  decide ((userId1, userId2) ∈ friends)

/--
`canViewPost(post, viewerId)` from `PostService.ts` (lines 172-197):
public posts are visible to everyone; for friends_only posts an
unauthenticated viewer is denied, the author is allowed, anyone else
needs `areFriends(post.authorId, viewerId)`.
-/
def canViewPost (post : Post) (viewerId : Option String) (friends : List (String × String)) : Bool :=
  if post.visibility = Visibility.publicV then
    true
  else
    match viewerId with
    | none => false
    | some v =>
      if post.authorId = v then true
      else areFriendsL friends post.authorId v

/-- `FriendRequestStatus` from `models/types.ts`. -/
inductive FRStatus where
  | pending
  | accepted
  | declined
deriving DecidableEq

/-- `FriendRequest` from `models/types.ts`. -/
structure FriendRequest where
  id : String
  fromUserId : String
  toUserId : String
  status : FRStatus
  createdAt : Nat
deriving DecidableEq

/-- Typed errors thrown by `FriendService.ts` (from `models/errors.ts`). -/
inductive FriendError where
  | selfFriendRequest
  | userNotFound
  | duplicateFriendRequest
  | friendRequestNotFound
  | forbidden
  | notFriends
deriving DecidableEq

/--
The slice of `InMemoryStorage` the friendship operations touch:
the user table (only existence of ids matters to `FriendService`),
the `friendRequests` map (fresh uuid keys, so an association list),
and the `friendsByUser` index as directed edges.
-/
structure StoreState where
  users : List String
  requests : List FriendRequest
  friends : List (String × String)
deriving DecidableEq

/-- `InMemoryStorage.createFriendship`: `Set.add` on the
`friendsByUser` index, i.e. insert-if-absent. -/
def createFriendship (friends : List (String × String)) (e : String × String) :
    List (String × String) :=
  if e ∈ friends then friends else friends ++ [e]

/-- `InMemoryStorage.deleteFriendship`: `Set.delete` on the
`friendsByUser` index. -/
def deleteFriendship (friends : List (String × String)) (e : String × String) :
    List (String × String) :=
  friends.filter (fun x => decide (x ≠ e))

/-- `InMemoryStorage.getFriendRequestById`. -/
def getFriendRequestById (requests : List FriendRequest) (id : String) :
    Option FriendRequest :=
  requests.find? (fun r => decide (r.id = id))

/-- `InMemoryStorage.getFriendRequestBetweenUsers`: first request with
the given endpoints whose status is `pending`. -/
def getFriendRequestBetweenUsers (requests : List FriendRequest)
    (fromUserId toUserId : String) : Option FriendRequest :=
  requests.find? (fun r =>
    decide (r.fromUserId = fromUserId ∧ r.toUserId = toUserId ∧ r.status = FRStatus.pending))

/-- `InMemoryStorage.updateFriendRequest`: `Map.set` keyed by id
(replaces the entry with that id). -/
def updateFriendRequest (requests : List FriendRequest) (request : FriendRequest) :
    List FriendRequest :=
  requests.map (fun r => if r.id = request.id then request else r)

/--
`FriendService.sendFriendRequest(fromUserId, toUserId)`
(`FriendService.ts` lines 50-96).  `newId` is the fresh uuid and `now`
the current time.
-/
def sendFriendRequest (s : StoreState) (fromUserId toUserId : String)
    (newId : String) (now : Nat) : Except FriendError StoreState :=
  if fromUserId = toUserId then
    Except.error FriendError.selfFriendRequest
  else if fromUserId ∉ s.users then
    Except.error FriendError.userNotFound
  else if toUserId ∉ s.users then
    Except.error FriendError.userNotFound
  else if areFriendsL s.friends fromUserId toUserId then
    Except.error FriendError.duplicateFriendRequest
  else if (getFriendRequestBetweenUsers s.requests fromUserId toUserId).isSome then
    Except.error FriendError.duplicateFriendRequest
  else if (getFriendRequestBetweenUsers s.requests toUserId fromUserId).isSome then
    Except.error FriendError.duplicateFriendRequest
  else
    Except.ok { s with requests := s.requests ++
      [{ id := newId, fromUserId := fromUserId, toUserId := toUserId,
         status := FRStatus.pending, createdAt := now }] }

/--
`FriendService.acceptFriendRequest(requestId, userId)`
(`FriendService.ts` lines 107-145): recipient check *before* the
pending check; on success flips the status and creates both friendship
edges.
-/
def acceptFriendRequest (s : StoreState) (requestId userId : String) (_now : Nat) :
    Except FriendError StoreState :=
  match getFriendRequestById s.requests requestId with
  | none => Except.error FriendError.friendRequestNotFound
  | some request =>
    if request.toUserId ≠ userId then
      Except.error FriendError.forbidden
    else if request.status ≠ FRStatus.pending then
      Except.error FriendError.friendRequestNotFound
    else
      Except.ok { s with
        requests := updateFriendRequest s.requests { request with status := FRStatus.accepted },
        friends :=
          createFriendship
            (createFriendship s.friends (request.fromUserId, request.toUserId))
            (request.toUserId, request.fromUserId) }

/--
`FriendService.declineFriendRequest(requestId, userId)`
(`FriendService.ts` lines 156-176): same checks as accept, flips the
status to declined, creates no edges.
-/
def declineFriendRequest (s : StoreState) (requestId userId : String) :
    Except FriendError StoreState :=
  match getFriendRequestById s.requests requestId with
  | none => Except.error FriendError.friendRequestNotFound
  | some request =>
    if request.toUserId ≠ userId then
      Except.error FriendError.forbidden
    else if request.status ≠ FRStatus.pending then
      Except.error FriendError.friendRequestNotFound
    else
      Except.ok { s with
        requests := updateFriendRequest s.requests { request with status := FRStatus.declined } }

/--
`FriendService.removeFriend(userId, friendId)`
(`FriendService.ts` lines 186-195): checks the edge in the
`userId → friendId` direction, then deletes both directions.
-/
def removeFriend (s : StoreState) (userId friendId : String) :
    Except FriendError StoreState :=
  if areFriendsL s.friends userId friendId = false then
    Except.error FriendError.notFriends
  else
    let pruned := deleteFriendship (deleteFriendship s.friends (userId, friendId)) (friendId, userId)
    Except.ok { s with friends := pruned }

/-- `InMemoryStorage.createUser` as far as `FriendService` observes it:
a new user id becomes resolvable. -/
def addUser (s : StoreState) (userId : String) : StoreState :=
  { s with users := s.users ++ [userId] }

/-- The empty store (a fresh `InMemoryStorage`). -/
def initialState : StoreState := { users := [], requests := [], friends := [] }

/-- States reachable from the empty store by user creation and the four
friendship operations (failed operations leave the store unchanged). -/
inductive Reachable : StoreState → Prop where
  | init : Reachable initialState
  | addUser {s : StoreState} (userId : String) :
      Reachable s → Reachable (addUser s userId)
  | send {s t : StoreState} (fromUserId toUserId newId : String) (now : Nat) :
      Reachable s → sendFriendRequest s fromUserId toUserId newId now = Except.ok t →
      Reachable t
  | accept {s t : StoreState} (requestId userId : String) (now : Nat) :
      Reachable s → acceptFriendRequest s requestId userId now = Except.ok t →
      Reachable t
  | decline {s t : StoreState} (requestId userId : String) :
      Reachable s → declineFriendRequest s requestId userId = Except.ok t →
      Reachable t
  | remove {s t : StoreState} (userId friendId : String) :
      Reachable s → removeFriend s userId friendId = Except.ok t →
      Reachable t

/-- The symmetry invariant on the friendship edge set. -/
def SymmFriends (friends : List (String × String)) : Prop :=
  ∀ a b : String, (a, b) ∈ friends → (b, a) ∈ friends

/-- State after "a" and "b" register and "a" sends request "r1" to "b". -/
def witStateSent : StoreState :=
  { users := ["a", "b"],
    requests := [{ id := "r1", fromUserId := "a", toUserId := "b",
                   status := FRStatus.pending, createdAt := 0 }],
    friends := [] }

/-- State after "b" accepts request "r1". -/
def witStateAccepted : StoreState :=
  { users := ["a", "b"],
    requests := [{ id := "r1", fromUserId := "a", toUserId := "b",
                   status := FRStatus.accepted, createdAt := 0 }],
    friends := [("a", "b"), ("b", "a")] }

/-- `Pagination` from `models/types.ts`. -/
structure Pagination where
  limit : Nat
  offset : Nat
deriving DecidableEq

/-- `FeedResult` from `models/types.ts`. -/
structure FeedResult where
  posts : List Post
  hasMore : Bool
  total : Nat
deriving DecidableEq

/--
The feed comparator `(a, b) => b.createdAt.getTime() - a.createdAt.getTime()`
as the induced "a may stay before b" relation: the comparator is ≤ 0
exactly when `b.createdAt ≤ a.createdAt`.
-/
def postLeDesc (a b : Post) : Bool :=
  decide (b.createdAt ≤ a.createdAt)

/--
`getFeed(userId, pagination)` from the feed service (`PostService.ts`
lines 451-491): filter by `canViewPost`, stable-sort by `createdAt`
descending (`Array.prototype.sort` is stable, modelled by `mergeSort`),
take `total` before pagination, slice `[offset, offset+limit)`, and set
`hasMore = offset + returned.length < total`.
-/
def getFeed (userId : Option String) (pagination : Pagination)
    (allPosts : List Post) (friends : List (String × String)) : FeedResult :=
  let visiblePosts := allPosts.filter (fun post => canViewPost post userId friends)
  let sortedPosts := visiblePosts.mergeSort postLeDesc
  let total := sortedPosts.length
  let paginatedPosts := (sortedPosts.drop pagination.offset).take pagination.limit
  { posts := paginatedPosts,
    hasMore := decide (pagination.offset + paginatedPosts.length < total),
    total := total }

/-- The visibility-filtered post collection, sorted as the feed sorts it. -/
def visiblePostsSorted (userId : Option String) (allPosts : List Post)
    (friends : List (String × String)) : List Post :=
  (allPosts.filter (fun post => canViewPost post userId friends)).mergeSort postLeDesc

/-- A public post used as concrete feed input. -/
def cexFeedPost : Post :=
  { id := "p1", authorId := "a",
    content := { type := ContentType.text, text := some "hi",
                 mediaUrl := none, mimeType := none, fileSize := none },
    visibility := Visibility.publicV,
    createdAt := 10, updatedAt := 10, isEdited := false }

/-- A store holding users "a", "b" and one *declined* request "r1"
from "a" to "b"; the two are not friends. -/
def declinedRequestState : StoreState :=
  { users := ["a", "b"],
    requests := [{ id := "r1", fromUserId := "a", toUserId := "b",
                   status := FRStatus.declined, createdAt := 0 }],
    friends := [] }

/--
The `content` object of `SerializedPost` as written by `serializePost`
(`SerializationService.ts` lines 33-49): only the keys `type`, `text?`
and `mediaUrl?` are ever emitted.
-/
structure SerializedContent where
  type : ContentType
  text : Option String
  mediaUrl : Option String
deriving DecidableEq

/--
`SerializedPost` from `SerializationService.ts`.  The JSON-string layer
(`JSON.stringify` / `JSON.parse`) is lossless on this record shape and
is modelled as the structured value itself; ISO-8601 date strings are
represented by the epoch-millisecond instant they denote
(`toISOString` / `new Date(iso)` preserve it exactly, so the date-string
validity checks of `deserializePost` always pass on serializer output,
as do the `typeof` and content-type/visibility guards, which hold here
by typing).
-/
structure SerializedPost where
  id : String
  authorId : String
  content : SerializedContent
  visibility : Visibility
  createdAt : Nat
  updatedAt : Nat
  isEdited : Bool
deriving DecidableEq

/--
`serializePost(post)` (`SerializationService.ts` lines 33-49): copies
`id`, `authorId`, `visibility`, `isEdited`, converts the dates, and
emits only the `type` / `text` / `mediaUrl` keys of `content` —
`mimeType` and `fileSize` are never written.
-/
def serializePost (post : Post) : SerializedPost :=
  { id := post.id,
    authorId := post.authorId,
    content := { type := post.content.type,
                 text := post.content.text,
                 mediaUrl := post.content.mediaUrl },
    visibility := post.visibility,
    createdAt := post.createdAt,
    updatedAt := post.updatedAt,
    isEdited := post.isEdited }

/--
`deserializePost(json)` (`SerializationService.ts` lines 62-117): the
falsy-id and falsy-authorId guards (`!parsed.id`, `!parsed.authorId`)
reject empty strings; the remaining guards always pass on values of
this shape (see `SerializedPost`).  The rebuilt content carries only
`type` / `text` / `mediaUrl`.
-/
def deserializePost (sp : SerializedPost) : Except String Post :=
  if sp.id = "" then
    Except.error "Invalid post: missing or invalid id"
  else if sp.authorId = "" then
    Except.error "Invalid post: missing or invalid authorId"
  else
    Except.ok
      { id := sp.id,
        authorId := sp.authorId,
        content := { type := sp.content.type,
                     text := sp.content.text,
                     mediaUrl := sp.content.mediaUrl,
                     mimeType := none,
                     fileSize := none },
        visibility := sp.visibility,
        createdAt := sp.createdAt,
        updatedAt := sp.updatedAt,
        isEdited := sp.isEdited }

/-- A valid image post whose content carries `mimeType` and `fileSize`. -/
def cexImagePost : Post :=
  { id := "p1", authorId := "a",
    content := { type := ContentType.image, text := none,
                 mediaUrl := some "https://example.com/img.png",
                 mimeType := some "image/png", fileSize := some 1024 },
    visibility := Visibility.publicV,
    createdAt := 1000, updatedAt := 2000, isEdited := false }

/-- `User` from `models/types.ts`. -/
structure AUser where
  id : String
  email : String
  username : String
  passwordHash : String
  createdAt : Nat
deriving DecidableEq

/-- `Session` from `models/types.ts`. -/
structure Session where
  id : String
  userId : String
  token : String
  expiresAt : Nat
deriving DecidableEq

/-- The slice of `InMemoryStorage` the authentication service touches. -/
structure AuthState where
  users : List AUser
  sessions : List Session
deriving DecidableEq

/-- `InMemoryStorage.getUserById`. -/
def getUserById (s : AuthState) (id : String) : Option AUser :=
  s.users.find? (fun u => decide (u.id = id))

/-- `InMemoryStorage.getUserByEmail`: the `usersByEmail` index is keyed
by `user.email.toLowerCase()` and probed with `email.toLowerCase()`. -/
def getUserByEmail (s : AuthState) (email : String) : Option AUser :=
  s.users.find? (fun u => decide (u.email.toLower = email.toLower))

/-- `InMemoryStorage.getUserByUsername` (case-insensitive, as above). -/
def getUserByUsername (s : AuthState) (username : String) : Option AUser :=
  s.users.find? (fun u => decide (u.username.toLower = username.toLower))

/--
Error outcomes of `AuthenticationService.register`.  `requiredFields`
models the plain `new Error('Email, username, and password are
required')` thrown for empty input — it is *not* an `AppError` subclass
and carries no error code.
-/
inductive RegisterError where
  | requiredFields
  | duplicateEmail
  | duplicateUsername
deriving DecidableEq

/--
The `code` property of the thrown value (`models/errors.ts`): the
`AppError` subclasses carry `'DUPLICATE_EMAIL'` / `'DUPLICATE_USERNAME'`;
the plain required-fields `Error` has no `code` property.
-/
def registerErrorCode : RegisterError → Option String
  | RegisterError.requiredFields => none
  | RegisterError.duplicateEmail => some "DUPLICATE_EMAIL"
  | RegisterError.duplicateUsername => some "DUPLICATE_USERNAME"

/--
`AuthenticationService.register(email, username, password)`
(`AuthenticationService.ts` lines 109-143).  `freshId` is the uuid,
`passwordHash` the salted hash, `now` the clock.  The returned state is
the store after the call (unchanged on every error path — the throw
happens before `createUser`).
-/
def register (s : AuthState) (email username password : String)
    (freshId passwordHash : String) (now : Nat) :
    Except RegisterError AUser × AuthState :=
  if email = "" ∨ username = "" ∨ password = "" then
    (Except.error RegisterError.requiredFields, s)
  else if (getUserByEmail s email).isSome then
    (Except.error RegisterError.duplicateEmail, s)
  else if (getUserByUsername s username).isSome then
    (Except.error RegisterError.duplicateUsername, s)
  else
    let user : AUser :=
      { id := freshId, email := (email.toLower).trim, username := username.trim,
        passwordHash := passwordHash, createdAt := now }
    (Except.ok user, { s with users := s.users ++ [user] })

/-- The empty authentication store. -/
def emptyAuthState : AuthState := { users := [], sessions := [] }

/-- `InMemoryStorage.getSessionById`. -/
def getSessionById (s : AuthState) (id : String) : Option Session :=
  s.sessions.find? (fun x => decide (x.id = id))

/-- `InMemoryStorage.getSessionByToken` (via the `sessionsByToken`
index, which maps a token to its session). -/
def getSessionByToken (s : AuthState) (token : String) : Option Session :=
  s.sessions.find? (fun x => decide (x.token = token))

/-- `InMemoryStorage.deleteSession`. -/
def deleteSession (s : AuthState) (id : String) : AuthState :=
  { s with sessions := s.sessions.filter (fun x => decide (x.id ≠ id)) }

/--
`AuthenticationService.validateSession(sessionId)`
(`AuthenticationService.ts` lines 190-207): returns the user (or
`null`) and the store after the call; `user || null` is the `Option`
lookup itself.
-/
def validateSession (s : AuthState) (sessionId : String) (now : Nat) :
    Option AUser × AuthState :=
  match getSessionById s sessionId with
  | none => (none, s)
  | some session =>
    if now > session.expiresAt then
      (none, deleteSession s sessionId)
    else
      (getUserById s session.userId, s)

/--
`AuthenticationService.validateSessionByToken(token)`
(`AuthenticationService.ts` lines 213-230).
-/
def validateSessionByToken (s : AuthState) (token : String) (now : Nat) :
    Option AUser × AuthState :=
  match getSessionByToken s token with
  | none => (none, s)
  | some session =>
    if now > session.expiresAt then
      (none, deleteSession s session.id)
    else
      (getUserById s session.userId, s)

/-- A store with an unexpired session "s1" whose user "u1" is absent. -/
def danglingSessionState : AuthState :=
  { users := [],
    sessions := [{ id := "s1", userId := "u1", token := "t1", expiresAt := 100 }] }

/-- `SUPPORTED_IMAGE_FORMATS` from `models/constants.ts`. -/
def SUPPORTED_IMAGE_FORMATS : List String := ["image/jpeg", "image/png", "image/gif"]

/-- `SUPPORTED_VIDEO_FORMATS` from `models/constants.ts`. -/
def SUPPORTED_VIDEO_FORMATS : List String := ["video/mp4", "video/webm"]

/-- `MAX_IMAGE_SIZE` from `models/constants.ts` (10 MB). -/
def MAX_IMAGE_SIZE : Nat := 10 * 1024 * 1024

/-- `MAX_VIDEO_SIZE` from `models/constants.ts` (100 MB). -/
def MAX_VIDEO_SIZE : Nat := 100 * 1024 * 1024

/-- `ValidationResult` from `models/types.ts`. -/
structure ValidationResult where
  valid : Bool
  errors : List String
deriving DecidableEq

/-- JS truthiness of an optional string field: `undefined` and the
empty string are falsy. -/
def optStrTruthy : Option String → Bool
  | none => false
  | some s => decide (s ≠ "")

/-- `validateImageContent` (`PostService.ts` lines 87-107), returning
the errors it pushes. -/
def validateImageContent (content : PostContent) : List String :=
  if optStrTruthy content.mediaUrl = false ∧ optStrTruthy content.mimeType = false then
    ["Image content cannot be empty"]
  else
    (match content.mimeType with
     | none => []
     | some m =>
       if m = "" then []
       else if m ∈ SUPPORTED_IMAGE_FORMATS then []
       else ["Unsupported image format. Supported formats: JPEG, PNG, GIF"]) ++
    (match content.fileSize with
     | none => []
     | some n => if n > MAX_IMAGE_SIZE then ["Image file exceeds maximum size of 10MB"] else [])

/-- `validateVideoContent` (`PostService.ts` lines 116-136), returning
the errors it pushes. -/
def validateVideoContent (content : PostContent) : List String :=
  if optStrTruthy content.mediaUrl = false ∧ optStrTruthy content.mimeType = false then
    ["Video content cannot be empty"]
  else
    (match content.mimeType with
     | none => []
     | some m =>
       if m = "" then []
       else if m ∈ SUPPORTED_VIDEO_FORMATS then []
       else ["Unsupported video format. Supported formats: MP4, WebM"]) ++
    (match content.fileSize with
     | none => []
     | some n => if n > MAX_VIDEO_SIZE then ["Video file exceeds maximum size of 100MB"] else [])

/--
`validateContent(content)` (`PostService.ts` lines 44-78).  The
`!content` null guard and the `default` branch are unrepresentable
here: a `PostContent` value always exists and its `type` is always one
of the three variants.
-/
def validateContent (content : PostContent) : ValidationResult :=
  let errors : List String :=
    match content.type with
    | ContentType.text =>
      match content.text with
      | none => ["Text content cannot be empty"]
      | some t => if t.trim = "" then ["Text content cannot be empty"] else []
    | ContentType.image => validateImageContent content
    | ContentType.video => validateVideoContent content
  { valid := decide (errors.length = 0), errors := errors }

/-- Typed errors of the post operations (`models/errors.ts`). -/
inductive PostError where
  | unauthorized
  | postNotFound
  | accessDenied
  | emptyContent
  | invalidFormat
  | fileTooLarge
deriving DecidableEq

/-- JS `String.prototype.includes`: contiguous substring test. -/
def containsSubstr (s pat : String) : Bool :=
  decide (List.IsInfix pat.data s.data)

/--
The error-kind inference of `createPost`/`updatePost`
(`PostService.ts` lines 342-353): the validation errors are joined with
`'; '` and matched by substring, *empty* before *unsupported format*
before *too large*, defaulting to the empty-content error.
-/
def postErrorOfMessage (errorMessage : String) : PostError :=
  if containsSubstr errorMessage "cannot be empty" then PostError.emptyContent
  else if containsSubstr errorMessage "Unsupported" then PostError.invalidFormat
  else if containsSubstr errorMessage "exceeds maximum size" then PostError.fileTooLarge
  else PostError.emptyContent

/-- `PostUpdate` from `models/types.ts`. -/
structure PostUpdate where
  content : Option PostContent
  visibility : Option Visibility
deriving DecidableEq

/-- `InMemoryStorage.getPostById` over the posts map. -/
def getPostById (posts : List Post) (id : String) : Option Post :=
  posts.find? (fun p => decide (p.id = id))

/-- `InMemoryStorage.updatePost`: `Map.set` keyed by `post.id`. -/
def storageUpdatePost (posts : List Post) (post : Post) : List Post :=
  posts.map (fun p => if p.id = post.id then post else p)

/--
`updatePost(postId, userId, updates)` (`PostService.ts` lines 316-376):
unauthenticated (`userId` falsy, i.e. absent or empty) → `Unauthorized`;
missing post → `PostNotFound`; non-author → `AccessDenied`; a provided
content is validated; on success the merged post keeps unspecified
fields, sets `isEdited = true`, refreshes `updatedAt` to `now` and
preserves `createdAt`, and is written back to the store.
-/
def updatePost (posts : List Post) (postId : String) (userId : Option String)
    (updates : PostUpdate) (now : Nat) : Except PostError (Post × List Post) :=
  match userId with
  | none => Except.error PostError.unauthorized
  | some uid =>
    if uid = "" then
      Except.error PostError.unauthorized
    else
      match getPostById posts postId with
      | none => Except.error PostError.postNotFound
      | some existingPost =>
        if existingPost.authorId ≠ uid then
          Except.error PostError.accessDenied
        else
          let contentCheck : Except PostError Unit :=
            match updates.content with
            | none => Except.ok ()
            | some c =>
              if (validateContent c).valid = false then
                Except.error (postErrorOfMessage
                  (String.intercalate "; " (validateContent c).errors))
              else Except.ok ()
          match contentCheck with
          | Except.error e => Except.error e
          | Except.ok _ =>
            let updatedPost : Post :=
              { existingPost with
                content := updates.content.getD existingPost.content,
                visibility := updates.visibility.getD existingPost.visibility,
                isEdited := true,
                updatedAt := now,
                createdAt := existingPost.createdAt }
            Except.ok (updatedPost, storageUpdatePost posts updatedPost)

/-- A stored text post by "u". -/
def witPost : Post :=
  { id := "p9", authorId := "u",
    content := { type := ContentType.text, text := some "hi",
                 mediaUrl := none, mimeType := none, fileSize := none },
    visibility := Visibility.friendsOnly,
    createdAt := 5, updatedAt := 5, isEdited := false }

/-- `witPost` after a visibility-only edit at time 9. -/
def witUpdatedPost : Post :=
  { witPost with visibility := Visibility.publicV, isEdited := true, updatedAt := 9 }

/--
Claim C1: for every post and viewer (including the unauthenticated
viewer `none`), `canViewPost` returns `true` on public posts; on
friends_only posts it returns `false` for `none`, `true` for the
author, and exactly `areFriends(authorId, viewerId)` for any other
viewer.
-/
theorem canViewPost_visibility_spec (post : Post) (friends : List (String × String)) :
    (post.visibility = Visibility.publicV →
      ∀ viewerId : Option String, canViewPost post viewerId friends = true) ∧
    (post.visibility = Visibility.friendsOnly →
      canViewPost post none friends = false ∧
      canViewPost post (some post.authorId) friends = true ∧
      ∀ v : String, v ≠ post.authorId →
        canViewPost post (some v) friends = areFriendsL friends post.authorId v) := by
  constructor
  · intro hpub viewerId
    simp [canViewPost, hpub]
  · intro hfo
    refine ⟨?_, ?_, ?_⟩
    · simp [canViewPost, hfo]
    · simp [canViewPost, hfo]
    · intro v hv
      simp [canViewPost, hfo, (Ne.symm hv)]

/-- Concrete instantiation of `canViewPost_visibility_spec`: a
friends_only post by "a" viewed by friend "b". -/
theorem canViewPost_visibility_spec_witness :
    canViewPost
      { id := "p1", authorId := "a",
        content := { type := ContentType.text, text := some "hi",
                     mediaUrl := none, mimeType := none, fileSize := none },
        visibility := Visibility.friendsOnly,
        createdAt := 0, updatedAt := 0, isEdited := false }
      (some "b") [("a", "b")] = true := by
  rw [(canViewPost_visibility_spec _ [("a", "b")]).2 rfl |>.2.2 "b" (by decide)]
  decide

/-- Membership in `createFriendship`. -/
theorem mem_createFriendship (friends : List (String × String))
    (e x : String × String) :
    x ∈ createFriendship friends e ↔ x ∈ friends ∨ x = e := by
  unfold createFriendship
  split
  · constructor
    · exact fun h => Or.inl h
    · rintro (h | rfl)
      · exact h
      · assumption
  · simp

/-- Membership in `deleteFriendship`. -/
theorem mem_deleteFriendship (friends : List (String × String))
    (e x : String × String) :
    x ∈ deleteFriendship friends e ↔ x ∈ friends ∧ x ≠ e := by
  simp [deleteFriendship]

theorem symmFriends_createPair (friends : List (String × String)) (u v : String)
    (h : SymmFriends friends) :
    SymmFriends (createFriendship (createFriendship friends (u, v)) (v, u)) := by
  intro a b hab
  rw [mem_createFriendship, mem_createFriendship] at hab ⊢
  rcases hab with (hab | hab) | hab
  · exact Or.inl (Or.inl (h a b hab))
  · rw [Prod.mk.injEq] at hab
    exact Or.inr (by simp [hab.1, hab.2])
  · rw [Prod.mk.injEq] at hab
    exact Or.inl (Or.inr (by simp [hab.1, hab.2]))

theorem symmFriends_deletePair (friends : List (String × String)) (u v : String)
    (h : SymmFriends friends) :
    SymmFriends (deleteFriendship (deleteFriendship friends (u, v)) (v, u)) := by
  intro a b hab
  rw [mem_deleteFriendship, mem_deleteFriendship] at hab ⊢
  rcases hab with ⟨⟨hmem, hne1⟩, hne2⟩
  refine ⟨⟨h a b hmem, ?_⟩, ?_⟩
  · intro hc
    rw [Prod.mk.injEq] at hc
    exact hne2 (by simp [hc.1, hc.2])
  · intro hc
    rw [Prod.mk.injEq] at hc
    exact hne1 (by simp [hc.1, hc.2])

/-- Every reachable store state has a symmetric friendship relation. -/
theorem reachable_symmFriends {s : StoreState} (h : Reachable s) :
    SymmFriends s.friends := by
  induction h with
  | init => intro a b hab; simp [initialState] at hab
  | addUser userId _ ih => exact ih
  | send fromUserId toUserId newId now _ hok ih =>
    unfold sendFriendRequest at hok
    repeat' split at hok
    all_goals cases hok
    exact ih
  | accept requestId userId now _ hok ih =>
    unfold acceptFriendRequest at hok
    split at hok
    · cases hok
    · repeat' split at hok
      all_goals cases hok
      exact symmFriends_createPair _ _ _ ih
  | decline requestId userId _ hok ih =>
    unfold declineFriendRequest at hok
    split at hok
    · cases hok
    · repeat' split at hok
      all_goals cases hok
      exact ih
  | remove userId friendId _ hok ih =>
    unfold removeFriend at hok
    split at hok
    · cases hok
    · cases hok
      exact symmFriends_deletePair _ _ _ ih

/--
Claim C2: in every state reachable by any sequence of friendship
operations, `areFriends(a,b)` holds iff `areFriends(b,a)` holds,
because accept creates and removal deletes both directions together.
-/
theorem areFriends_symm_reachable (s : StoreState) (h : Reachable s)
    (a b : String) :
    areFriendsL s.friends a b = true ↔ areFriendsL s.friends b a = true := by
  have hs := reachable_symmFriends h
  simp only [areFriendsL, decide_eq_true_eq]
  exact ⟨fun hab => hs a b hab, fun hba => hs b a hba⟩

/-- A concrete reachable state for `areFriends_symm_reachable`:
"a" and "b" register, "a" sends a request, "b" accepts. -/
theorem areFriends_symm_reachable_witness :
    areFriendsL witStateAccepted.friends "b" "a" = true := by
  have h1 : sendFriendRequest (addUser (addUser initialState "a") "b") "a" "b" "r1" 0 =
      Except.ok witStateSent := by rfl
  have h2 : acceptFriendRequest witStateSent "r1" "b" 1 =
      Except.ok witStateAccepted := by rfl
  have hreach := Reachable.accept "r1" "b" 1 (Reachable.send "a" "b" "r1" 0
    (Reachable.addUser "b" (Reachable.addUser "a" Reachable.init)) h1) h2
  exact (areFriends_symm_reachable _ hreach "a" "b").mp (by decide)

theorem postLeDesc_trans (a b c : Post) :
    postLeDesc a b → postLeDesc b c → postLeDesc a c := by
  simp only [postLeDesc, decide_eq_true_eq]
  exact fun h1 h2 => Nat.le_trans h2 h1

theorem postLeDesc_total (a b : Post) : postLeDesc a b || postLeDesc b a := by
  simp only [postLeDesc]
  rcases Nat.le_total a.createdAt b.createdAt with h | h <;> simp [h]

/--
Claim C3: `getFeed` retains exactly the posts satisfying
`canViewPost(·, viewerId)` (the sorted collection is a permutation of
the filtered one), returns them sorted by `createdAt` descending,
reports `total` as the count of all visible posts before pagination,
returns the slice `[offset, offset+limit)` of the sorted collection,
and sets `hasMore` exactly when `offset + returned.length < total`.
-/
theorem getFeed_spec (userId : Option String) (pagination : Pagination)
    (allPosts : List Post) (friends : List (String × String)) :
    (getFeed userId pagination allPosts friends).total =
      (allPosts.filter (fun post => canViewPost post userId friends)).length ∧
    (visiblePostsSorted userId allPosts friends).Perm
      (allPosts.filter (fun post => canViewPost post userId friends)) ∧
    (getFeed userId pagination allPosts friends).posts.Pairwise
      (fun a b => b.createdAt ≤ a.createdAt) ∧
    (getFeed userId pagination allPosts friends).posts =
      ((visiblePostsSorted userId allPosts friends).drop pagination.offset).take
        pagination.limit ∧
    ((getFeed userId pagination allPosts friends).hasMore = true ↔
      pagination.offset + (getFeed userId pagination allPosts friends).posts.length <
        (getFeed userId pagination allPosts friends).total) := by
  refine ⟨?_, ?_, ?_, ?_, ?_⟩
  · simp [getFeed, List.length_mergeSort]
  · exact List.mergeSort_perm _ _
  · have hsorted :
        ((allPosts.filter (fun post => canViewPost post userId friends)).mergeSort
          postLeDesc).Pairwise (fun a b => postLeDesc a b = true) :=
      List.sorted_mergeSort postLeDesc_trans postLeDesc_total _
    have hsub :
        (getFeed userId pagination allPosts friends).posts.Sublist
          ((allPosts.filter (fun post => canViewPost post userId friends)).mergeSort
            postLeDesc) := by
      simp only [getFeed]
      exact (List.take_sublist _ _).trans (List.drop_sublist _ _)
    exact (hsorted.sublist hsub).imp (by simp [postLeDesc])
  · rfl
  · simp [getFeed]

/--
Claim C4 (amended): with `limit = 0`, `getFeed` returns an empty page,
still reports the true total, and `hasMore` is true exactly when
`offset` is below that total (so for `offset = 0`, whenever any visible
post exists).
-/
theorem getFeed_limit_zero_spec (userId : Option String) (offset : Nat)
    (allPosts : List Post) (friends : List (String × String)) :
    (getFeed userId { limit := 0, offset := offset } allPosts friends).posts = [] ∧
    (getFeed userId { limit := 0, offset := offset } allPosts friends).total =
      (allPosts.filter (fun post => canViewPost post userId friends)).length ∧
    ((getFeed userId { limit := 0, offset := offset } allPosts friends).hasMore = true ↔
      offset < (getFeed userId { limit := 0, offset := offset } allPosts friends).total) := by
  refine ⟨rfl, ?_, ?_⟩
  · simp [getFeed, List.length_mergeSort]
  · simp [getFeed]

/--
Claim C4 is false as stated: with one visible post, `limit = 0` and
`offset = 1`, at least one visible post exists, yet
`hasMore = (1 + 0 < 1) = false`.
-/
theorem getFeed_limit_zero_hasMore_cex :
    0 < (getFeed none { limit := 0, offset := 1 } [cexFeedPost] []).total ∧
    (getFeed none { limit := 0, offset := 1 } [cexFeedPost] []).hasMore = false := by
  constructor
  · simp [getFeed, cexFeedPost, canViewPost]
  · simp [getFeed, cexFeedPost, canViewPost]

/--
Claim C5 is false as stated: request "r1" exists and is declined (not
pending), yet `acceptFriendRequest("r1", "a")` with acting user "a"
(not the recipient) fails with `Forbidden`, not `FriendRequestNotFound`
— the recipient check runs before the pending check.
-/
theorem acceptFriendRequest_nonpending_cex :
    (getFriendRequestById declinedRequestState.requests "r1").isSome = true ∧
    ¬ ∀ actingUserId : String,
        acceptFriendRequest declinedRequestState "r1" actingUserId 1 =
          Except.error FriendError.friendRequestNotFound := by
  constructor
  · rfl
  · intro h
    have ha := h "a"
    have hforbidden : acceptFriendRequest declinedRequestState "r1" "a" 1 =
        Except.error FriendError.forbidden := rfl
    rw [hforbidden] at ha
    exact FriendError.noConfusion (Except.error.inj ha)

/--
Claim C5 (amended): a nonexistent request id fails with
`FriendRequestNotFound`; an existing non-pending request fails with
`FriendRequestNotFound` when the acting user is the request's recipient,
and with `Forbidden` otherwise (the recipient check precedes the
pending check).
-/
theorem acceptFriendRequest_nonpending_spec (s : StoreState)
    (requestId userId : String) (now : Nat) :
    (getFriendRequestById s.requests requestId = none →
      acceptFriendRequest s requestId userId now =
        Except.error FriendError.friendRequestNotFound) ∧
    (∀ request : FriendRequest,
      getFriendRequestById s.requests requestId = some request →
      request.status ≠ FRStatus.pending →
      acceptFriendRequest s requestId userId now =
        Except.error (if userId = request.toUserId then FriendError.friendRequestNotFound
          else FriendError.forbidden)) := by
  constructor
  · intro hnone
    simp [acceptFriendRequest, hnone]
  · intro request hfind hnp
    simp only [acceptFriendRequest, hfind]
    by_cases h : request.toUserId = userId
    · simp [h, hnp]
    · rw [if_neg (fun hc => h (Eq.symm hc))]
      simp [h]

/-- Concrete instantiation of `acceptFriendRequest_nonpending_spec`:
the recipient "b" accepting the already-declined request "r1" gets
`FriendRequestNotFound`. -/
theorem acceptFriendRequest_nonpending_spec_witness :
    acceptFriendRequest declinedRequestState "r1" "b" 1 =
      Except.error FriendError.friendRequestNotFound := by
  have h := (acceptFriendRequest_nonpending_spec declinedRequestState "r1" "b" 1).2
    { id := "r1", fromUserId := "a", toUserId := "b",
      status := FRStatus.declined, createdAt := 0 } rfl (by decide)
  simpa using h

/--
Claim C6: for existing distinct users, `sendFriendRequest` fails with
`DuplicateFriendRequest` exactly when the two are already friends, or a
pending request exists from→to, or a pending request exists to→from;
when none of these holds (in particular when every request between them
is in a terminal accepted/declined state) the request is created.
-/
theorem sendFriendRequest_duplicate_iff (s : StoreState)
    (fromUserId toUserId newId : String) (now : Nat)
    (hne : fromUserId ≠ toUserId)
    (hfrom : fromUserId ∈ s.users) (hto : toUserId ∈ s.users) :
    (sendFriendRequest s fromUserId toUserId newId now =
        Except.error FriendError.duplicateFriendRequest ↔
      (areFriendsL s.friends fromUserId toUserId = true ∨
       (getFriendRequestBetweenUsers s.requests fromUserId toUserId).isSome = true ∨
       (getFriendRequestBetweenUsers s.requests toUserId fromUserId).isSome = true)) ∧
    (areFriendsL s.friends fromUserId toUserId = false →
      getFriendRequestBetweenUsers s.requests fromUserId toUserId = none →
      getFriendRequestBetweenUsers s.requests toUserId fromUserId = none →
      sendFriendRequest s fromUserId toUserId newId now =
        Except.ok { s with requests := s.requests ++
          [{ id := newId, fromUserId := fromUserId, toUserId := toUserId,
             status := FRStatus.pending, createdAt := now }] }) := by
  constructor
  · simp only [sendFriendRequest, if_neg hne, if_neg (not_not_intro hfrom),
      if_neg (not_not_intro hto)]
    by_cases h1 : areFriendsL s.friends fromUserId toUserId
    · simp [h1]
    · by_cases h2 : (getFriendRequestBetweenUsers s.requests fromUserId toUserId).isSome
      · simp [h1, h2]
      · by_cases h3 : (getFriendRequestBetweenUsers s.requests toUserId fromUserId).isSome
        · simp [h1, h2, h3]
        · simp [h1, h2, h3]
  · intro h1 h2 h3
    simp [sendFriendRequest, if_neg hne, if_neg (not_not_intro hfrom),
      if_neg (not_not_intro hto), h1, h2, h3]

/-- Concrete instantiation of `sendFriendRequest_duplicate_iff`: after
"r1" was declined, "a" can send a fresh request to "b". -/
theorem sendFriendRequest_duplicate_iff_witness :
    sendFriendRequest declinedRequestState "a" "b" "r2" 5 =
      Except.ok { declinedRequestState with requests := declinedRequestState.requests ++
        [{ id := "r2", fromUserId := "a", toUserId := "b",
           status := FRStatus.pending, createdAt := 5 }] } := by
  exact (sendFriendRequest_duplicate_iff declinedRequestState "a" "b" "r2" 5
    (by decide) (by decide) (by decide)).2 rfl rfl rfl

/--
Claim C7 is false as stated: for a valid image post whose content
carries `mimeType`/`fileSize`, `deserializePost(serializePost(p))` is
not field-wise equal to `p` — serialization drops those content fields.
-/
theorem serialize_roundtrip_cex :
    deserializePost (serializePost cexImagePost) ≠ Except.ok cexImagePost := by
  intro h
  have hinj := Except.ok.inj h
  have hmime := congrArg (fun p => p.content.mimeType) hinj
  simp [cexImagePost] at hmime

/--
Claim C7 (amended): for every Post with nonempty `id` and `authorId`
whose content carries no `mimeType` and no `fileSize` (i.e. only the
serialized tagged-union keys `type` / `text` / `mediaUrl`),
`deserializePost(serializePost(p))` is field-wise equal to `p`, with
dates compared by epoch millisecond; `mimeType`/`fileSize`, when
present, are dropped by `serializePost`.
-/
theorem serialize_roundtrip_spec (post : Post)
    (hid : post.id ≠ "") (hauthor : post.authorId ≠ "")
    (hmime : post.content.mimeType = none) (hsize : post.content.fileSize = none) :
    deserializePost (serializePost post) = Except.ok post := by
  obtain ⟨id, authorId, content, visibility, createdAt, updatedAt, isEdited⟩ := post
  obtain ⟨ctype, ctext, cmediaUrl, cmime, csize⟩ := content
  simp only at hid hauthor hmime hsize
  subst hmime hsize
  simp [serializePost, deserializePost, hid, hauthor]

/-- Concrete instantiation of `serialize_roundtrip_spec`: a text post
round-trips exactly. -/
theorem serialize_roundtrip_spec_witness :
    deserializePost (serializePost
      { id := "p2", authorId := "b",
        content := { type := ContentType.text, text := some "hello",
                     mediaUrl := none, mimeType := none, fileSize := none },
        visibility := Visibility.friendsOnly,
        createdAt := 42, updatedAt := 43, isEdited := true }) =
      Except.ok
        { id := "p2", authorId := "b",
          content := { type := ContentType.text, text := some "hello",
                       mediaUrl := none, mimeType := none, fileSize := none },
          visibility := Visibility.friendsOnly,
          createdAt := 42, updatedAt := 43, isEdited := true } := by
  exact serialize_roundtrip_spec _ (by decide) (by decide) rfl rfl

/--
Claim C8 is false as stated: `register` with an empty email fails with
the untyped required-fields `Error`, whose `code` is absent — not a
`ValidationError` kind (no such kind exists in `models/errors.ts`) —
though indeed no user is stored.
-/
theorem register_empty_validation_cex :
    (register emptyAuthState "" "someuser" "password" "u1" "h1" 0).1 =
      Except.error RegisterError.requiredFields ∧
    registerErrorCode RegisterError.requiredFields ≠ some "VALIDATION_ERROR" ∧
    (register emptyAuthState "" "someuser" "password" "u1" "h1" 0).2 = emptyAuthState := by
  refine ⟨rfl, by decide, rfl⟩

/--
Claim C8 (amended): whenever any of the three inputs is empty,
`register` fails with the plain untyped required-fields `Error`
(before any duplicate check, so never `DuplicateEmail` /
`DuplicateUsername`) and the store is unchanged — no user is stored.
-/
theorem register_empty_input_spec (s : AuthState)
    (email username password freshId passwordHash : String) (now : Nat)
    (h : email = "" ∨ username = "" ∨ password = "") :
    (register s email username password freshId passwordHash now).1 =
      Except.error RegisterError.requiredFields ∧
    (register s email username password freshId passwordHash now).2 = s := by
  simp [register, if_pos h]

/-- Concrete instantiation of `register_empty_input_spec`. -/
theorem register_empty_input_spec_witness :
    (register emptyAuthState "a@b.c" "" "pw" "u1" "h1" 7).1 =
      Except.error RegisterError.requiredFields ∧
    (register emptyAuthState "a@b.c" "" "pw" "u1" "h1" 7).2 = emptyAuthState :=
  register_empty_input_spec emptyAuthState "a@b.c" "" "pw" "u1" "h1" 7 (Or.inr (Or.inl rfl))

/--
Claim C10: if a session exists and has not expired but its `userId`
resolves to no stored user, `validateSession` and
`validateSessionByToken` return `null` (no error, no partial result)
and leave the store unchanged — the session is deleted only on the
expired path.
-/
theorem validateSession_missing_user_spec (s : AuthState) (now : Nat) :
    (∀ sessionId session, getSessionById s sessionId = some session →
      ¬ now > session.expiresAt → getUserById s session.userId = none →
      validateSession s sessionId now = (none, s)) ∧
    (∀ token session, getSessionByToken s token = some session →
      ¬ now > session.expiresAt → getUserById s session.userId = none →
      validateSessionByToken s token now = (none, s)) := by
  constructor
  · intro sessionId session hfind hexp huser
    simp [validateSession, hfind, hexp, huser]
  · intro token session hfind hexp huser
    simp [validateSessionByToken, hfind, hexp, huser]

/-- Concrete instantiation of `validateSession_missing_user_spec`. -/
theorem validateSession_missing_user_spec_witness :
    validateSession danglingSessionState "s1" 50 = (none, danglingSessionState) ∧
    validateSessionByToken danglingSessionState "t1" 50 = (none, danglingSessionState) := by
  constructor
  · exact (validateSession_missing_user_spec danglingSessionState 50).1 "s1"
      { id := "s1", userId := "u1", token := "t1", expiresAt := 100 } rfl (by decide) rfl
  · exact (validateSession_missing_user_spec danglingSessionState 50).2 "t1"
      { id := "s1", userId := "u1", token := "t1", expiresAt := 100 } rfl (by decide) rfl

/--
Claim C9: every successful `updatePost` by the author preserves `id`,
`authorId` and `createdAt`, sets `isEdited = true`, does not decrease
`updatedAt` (given that the clock is at or past the stored timestamp),
and keeps the existing content/visibility when they are absent from
`updates`.
-/
theorem updatePost_frame_spec (posts : List Post) (postId uid : String)
    (updates : PostUpdate) (now : Nat) (p r : Post) (posts2 : List Post)
    (hfind : getPostById posts postId = some p)
    (hok : updatePost posts postId (some uid) updates now = Except.ok (r, posts2))
    (hnow : p.updatedAt ≤ now) :
    r.id = p.id ∧ r.authorId = p.authorId ∧ r.createdAt = p.createdAt ∧
    r.isEdited = true ∧ p.updatedAt ≤ r.updatedAt ∧
    (updates.content = none → r.content = p.content) ∧
    (updates.visibility = none → r.visibility = p.visibility) := by
  simp only [updatePost, hfind] at hok
  split at hok
  · exact absurd hok (fun hc => Except.noConfusion hc)
  · split at hok
    · exact absurd hok (fun hc => Except.noConfusion hc)
    · split at hok
      · exact absurd hok (fun hc => Except.noConfusion hc)
      · have hpair := Except.ok.inj hok
        have hr : r =
            { p with
              content := updates.content.getD p.content,
              visibility := updates.visibility.getD p.visibility,
              isEdited := true,
              updatedAt := now,
              createdAt := p.createdAt } := (congrArg Prod.fst hpair).symm
        subst hr
        refine ⟨rfl, rfl, rfl, rfl, hnow, ?_, ?_⟩
        · intro hc
          simp [hc]
        · intro hv
          simp [hv]

/-- Concrete instantiation of `updatePost_frame_spec`: a
visibility-only edit of `witPost` by its author. -/
theorem updatePost_frame_spec_witness :
    witUpdatedPost.createdAt = witPost.createdAt ∧
    witUpdatedPost.isEdited = true ∧
    witUpdatedPost.content = witPost.content := by
  have h := updatePost_frame_spec [witPost] "p9" "u"
    { content := none, visibility := some Visibility.publicV } 9
    witPost witUpdatedPost [witUpdatedPost] rfl rfl (by decide)
  exact ⟨h.2.2.1, h.2.2.2.1, h.2.2.2.2.2.1 rfl⟩

end AiFun
